import Mathlib

/-!
Verification development for the Scree repository
(`src/main.py`, the in-VM agent runtime, and `src/autonomous_coder_pipeline.py`,
the Open WebUI orchestration pipeline).

The Python sources are shallowly embedded as executable Lean functions.
External effects (the Proxmox API, the VM filesystem, the model service,
wall-clock time) are inputs to the embedded functions: each embedded
routine takes the outcomes of its external calls as explicit oracle
parameters and returns the outputs it would produce (yielded chunks,
progress-log appends, issued API calls, final task state).
-/

namespace Scree

/-! ## Python string primitives used by the sources -/

/-- Characters treated as whitespace by Python `str.strip()` / `str.split()`
(ASCII subset; the sources only ever see ASCII whitespace). -/
def pyIsSpace (c : Char) : Bool :=
  c = ' ' || c = Char.ofNat 9 || c = Char.ofNat 10 || c = Char.ofNat 13 ||
  c = Char.ofNat 11 || c = Char.ofNat 12

/-- Python `s.startswith(p)`: string prefix test. -/
def pyStartswith (s p : String) : Bool :=
  p.data.isPrefixOf s.data

/-- Python `sub in s`: substring containment, via first-occurrence search.
`findAfter pat s` returns the characters after the first occurrence of
`pat` in `s`, or `none` when `pat` does not occur. -/
def findAfter (pat : List Char) : List Char → Option (List Char)
  | [] => if pat.isPrefixOf ([] : List Char) then some [] else none
  | c :: t =>
    if pat.isPrefixOf (c :: t) then some ((c :: t).drop pat.length)
    else findAfter pat t

/-- Python `sub in s` (substring containment). -/
def pyIn (sub s : String) : Bool :=
  (findAfter sub.data s.data).isSome

/-- Helper for Python `s.split(sep)` with a one-character separator:
splits on every occurrence, keeping empty pieces. -/
def splitSepAux (sep : Char) : List Char → List Char → List String
  | [], cur => [String.mk cur.reverse]
  | c :: rest, cur =>
    if c = sep then String.mk cur.reverse :: splitSepAux sep rest []
    else splitSepAux sep rest (c :: cur)

/-- Python `s.split(sep)` for a one-character separator. -/
def splitSep (sep : Char) (s : String) : List String :=
  splitSepAux sep s.data []

/-- Python `s.strip()`: remove leading and trailing whitespace. -/
def pyStrip (s : String) : String :=
  String.mk (((s.data.dropWhile pyIsSpace).reverse.dropWhile pyIsSpace).reverse)

/-- Helper for Python `s.split()` (no argument): split on whitespace runs,
dropping empty pieces. -/
def pySplitWsAux : List Char → List Char → List String
  | [], cur => if cur = [] then [] else [String.mk cur.reverse]
  | c :: rest, cur =>
    if pyIsSpace c then
      if cur = [] then pySplitWsAux rest []
      else String.mk cur.reverse :: pySplitWsAux rest []
    else pySplitWsAux rest (c :: cur)

/-- Python `s.split()` with no argument. -/
def pySplitWs (s : String) : List String :=
  pySplitWsAux s.data []

/-- Python truthy-`or` over optional strings:
`pyOrD a d` is `a` when `a` is a non-empty string, else `d`
(models `result.get("error") or task.error or "Unknown error"` chains). -/
def pyOrD (a : Option String) (d : String) : String :=
  match a with
  | some s => if s = "" then d else s
  | none => d

/-! ## Path resolution (`main.py`, `ReadFileTool._resolve_path` and the
identical inline checks in `WriteFileTool.execute`, `ListFilesTool.execute`,
`SearchFilesTool.execute`) -/

/-- Segment-stack normalization backing `realpath`:
empty and `.` segments are dropped, `..` pops one segment (staying at the
root when already empty). -/
def normSegsAux : List String → List String → List String
  | [], acc => acc.reverse
  | seg :: rest, acc =>
    if seg = "" ∨ seg = "." then normSegsAux rest acc
    else if seg = ".." then normSegsAux rest (acc.drop 1)
    else normSegsAux rest (seg :: acc)

/-- Rebuild a path string from normalized segments. -/
def joinSegs : List String → String
  | [] => ""
  | s :: rest => "/" ++ s ++ joinSegs rest

/-- Model of Python `os.path.realpath` on an absolute path, in a
symlink-free filesystem: lexical normalization of `.`, `..` and duplicate
separators.  (`realpath` never requires the path to exist.) -/
def realpath (p : String) : String :=
  let segs := normSegsAux (splitSep '/' p) []
  if segs = [] then "/" else joinSegs segs

/-- Model of Python `os.path.join(a, b)`: an absolute second component
replaces the first. -/
def osPathJoin (a b : String) : String :=
  if pyStartswith b "/" then b
  else if a = "" ∨ a.data.getLast? = some '/' then a ++ b
  else a ++ "/" ++ b

/-- `ReadFileTool._resolve_path` (`main.py` lines 184-190); the same
workspace / `realpath` / `startswith` computation is inlined in
`WriteFileTool.execute`, `ListFilesTool.execute` and
`SearchFilesTool.execute`.  Returns the resolved path when the
containment check passes, `none` when the capability fails with the
containment error. -/
def resolvePath (workspace_dir path : String) : Option String :=
  let workspace := realpath workspace_dir
  let full_path := realpath (osPathJoin workspace path)
  if pyStartswith full_path workspace then some full_path else none

/-- Modelled from the spec: a resolved absolute path "lies within the
workspace root" when it is the root itself or sits below it past a `/`
boundary.  This is the spec notion of containment, to be compared with
the string-prefix check the code actually performs. -/
def withinRoot (root p : String) : Bool :=
  p = root || pyStartswith p (root ++ "/")

/-- A resolved path that passes the string-prefix check while lying
outside the root: the root string is a proper prefix of it with no `/`
boundary (sibling-directory name collision). -/
def isPrefixCollision (root p : String) : Bool :=
  pyStartswith p root && !withinRoot root p

/-! ## Regular expressions (`re.search(pattern, command, re.IGNORECASE)`
over the `ExecuteCommandTool.BLOCKED_PATTERNS` of `main.py`).
A small derivative-based matcher covering exactly the constructs those
six patterns use: case-insensitive literals, `.`, `\s`, `+`, `*`, `(..)?`. -/

/-- Atoms of the blocked patterns: a (case-insensitive, per `re.IGNORECASE`)
literal character, `.` (any character but newline), and the class `\s`. -/
inductive RAtom where
  | lit (c : Char)
  | dot
  | space
deriving DecidableEq

/-- Whether a pattern atom matches one input character. -/
def atomMatches : RAtom → Char → Bool
  | .lit c, d => c.toLower = d.toLower
  | .dot, d => d ≠ Char.ofNat 10
  | .space, d => pyIsSpace d

/-- Regular-expression terms. -/
inductive RE where
  | emp
  | eps
  | atom (a : RAtom)
  | seq (r s : RE)
  | alt (r s : RE)
  | star (r : RE)

/-- Whether a regular expression matches the empty string. -/
def RE.nullable : RE → Bool
  | .emp => false
  | .eps => true
  | .atom _ => false
  | .seq r s => r.nullable && s.nullable
  | .alt r s => r.nullable || s.nullable
  | .star _ => true

/-- Brzozowski derivative of a regular expression by one character. -/
def RE.deriv : RE → Char → RE
  | .emp, _ => .emp
  | .eps, _ => .emp
  | .atom a, c => if atomMatches a c then .eps else .emp
  | .seq r s, c =>
    if r.nullable then .alt (.seq (r.deriv c) s) (s.deriv c)
    else .seq (r.deriv c) s
  | .alt r s, c => .alt (r.deriv c) (s.deriv c)
  | .star r, c => .seq (r.deriv c) (.star r)

/-- Whether some prefix of the input matches the regular expression. -/
def reMatchStart (r : RE) : List Char → Bool
  | [] => r.nullable
  | c :: cs => r.nullable || reMatchStart (r.deriv c) cs

/-- Python `re.search`: whether the pattern matches anywhere in the input. -/
def reSearch (r : RE) : List Char → Bool
  | [] => reMatchStart r []
  | c :: cs => reMatchStart r (c :: cs) || reSearch r cs

/-- `r+`. -/
def rePlus (r : RE) : RE := .seq r (.star r)

/-- `(r)?`. -/
def reOpt (r : RE) : RE := .alt r .eps

/-- A sequence of literal characters. -/
def reStr (s : String) : RE :=
  s.data.foldr (fun c r => .seq (.atom (.lit c)) r) .eps

/-- Sequence a list of regular expressions. -/
def reCat (rs : List RE) : RE :=
  rs.foldr .seq .eps

/-- `ExecuteCommandTool.BLOCKED_PATTERNS` (`main.py` lines 433-440):
`rm\s+-rf\s+/`, `>\s*/dev/`, `mkfs\.`, `dd\s+if=`,
`curl.*\|\s*(ba)?sh`, `wget.*\|\s*(ba)?sh`. -/
def BLOCKED_PATTERNS : List RE :=
  [ reCat [reStr "rm", rePlus (.atom .space), reStr "-rf", rePlus (.atom .space), reStr "/"],
    reCat [reStr ">", .star (.atom .space), reStr "/dev/"],
    reCat [reStr "mkfs."],
    reCat [reStr "dd", rePlus (.atom .space), reStr "if="],
    reCat [reStr "curl", .star (.atom .dot), reStr "|", .star (.atom .space), reOpt (reStr "ba"), reStr "sh"],
    reCat [reStr "wget", .star (.atom .dot), reStr "|", .star (.atom .space), reOpt (reStr "ba"), reStr "sh"] ]

/-- The blocked-pattern scan of `ExecuteCommandTool._validate_command`
(`main.py` lines 486-488). -/
def matchesBlockedPattern (command : String) : Bool :=
  BLOCKED_PATTERNS.any fun p => reSearch p command.data

/-! ## `shlex.split` (POSIX mode, whitespace-split), used by
`ExecuteCommandTool._validate_command` to find the leading token. -/

/-- Characters `shlex` treats as token separators (`shlex.whitespace`). -/
def shlexIsWs (c : Char) : Bool :=
  c = ' ' || c = Char.ofNat 9 || c = Char.ofNat 13 || c = Char.ofNat 10

/-- The single-quote, double-quote and backslash characters. -/
def squote : Char := Char.ofNat 39

def dquote : Char := Char.ofNat 34

def bslash : Char := Char.ofNat 92

/-- State of the `shlex` tokenizer: between tokens, inside a word,
inside a quote, or after an escape character (returning either to the
word state or to a double-quote state). -/
inductive ShState where
  | ws
  | word
  | quote (q : Char)
  | esc (retQuote : Option Char)

/-- Core of `shlex.split(command)` in POSIX mode with whitespace
splitting: returns `none` where Python raises `ValueError` (unclosed
quote, trailing escape).  Arguments: remaining input, state, current
token (reversed), whether the current token saw a quote, accumulated
tokens (reversed). -/
def shlexCore : List Char → ShState → List Char → Bool → List String → Option (List String)
  | [], .ws, _, _, acc => some acc.reverse
  | [], .word, tok, quoted, acc =>
    if tok = [] ∧ ¬ quoted then some acc.reverse
    else some (String.mk tok.reverse :: acc).reverse
  | [], .quote _, _, _, _ => none
  | [], .esc _, _, _, _ => none
  | c :: rest, .ws, tok, _, acc =>
    if shlexIsWs c then shlexCore rest .ws tok false acc
    else if c = squote ∨ c = dquote then shlexCore rest (.quote c) tok true acc
    else if c = bslash then shlexCore rest (.esc none) tok false acc
    else shlexCore rest .word (c :: tok) false acc
  | c :: rest, .word, tok, quoted, acc =>
    if shlexIsWs c then
      if tok = [] ∧ ¬ quoted then shlexCore rest .ws [] false acc
      else shlexCore rest .ws [] false (String.mk tok.reverse :: acc)
    else if c = squote ∨ c = dquote then shlexCore rest (.quote c) tok true acc
    else if c = bslash then shlexCore rest (.esc none) tok quoted acc
    else shlexCore rest .word (c :: tok) quoted acc
  | c :: rest, .quote q, tok, quoted, acc =>
    if c = q then shlexCore rest .word tok quoted acc
    else if c = bslash ∧ q = dquote then shlexCore rest (.esc (some q)) tok quoted acc
    else shlexCore rest (.quote q) (c :: tok) quoted acc
  | c :: rest, .esc ret, tok, quoted, acc =>
    match ret with
    | none => shlexCore rest .word (c :: tok) quoted acc
    | some q =>
      if c ≠ bslash ∧ c ≠ q then shlexCore rest (.quote q) (c :: bslash :: tok) quoted acc
      else shlexCore rest (.quote q) (c :: tok) quoted acc

/-- `shlex.split(command)`; `none` models a `ValueError`. -/
def shlexSplit (command : String) : Option (List String) :=
  shlexCore command.data .ws [] false []

/-! ## `ExecuteCommandTool` command validation (`main.py` lines 414-503) -/

/-- `ExecuteCommandTool.ALLOWED_COMMANDS` (`main.py` lines 419-431). -/
def ALLOWED_COMMANDS : List String :=
  [ "npm", "yarn", "pnpm", "npx",
    "pip", "pip3", "python", "python3",
    "node",
    "go", "cargo", "rustc",
    "make", "cmake",
    "ls", "cat", "head", "tail", "grep", "find", "wc",
    "git",
    "curl", "wget",
    "jq", "yq",
    "echo", "printf", "test", "mkdir", "cp", "mv", "rm", "touch",
    "chmod", "pwd", "cd", "which", "env" ]

/-- `parts[0].split("/")[-1]`: basename of the leading token, ignoring
any directory prefix. -/
def baseCmdOf (tok : String) : String :=
  (splitSep '/' tok).getLastD ""

/-- The leading executable token (basename) of a command as
`_validate_command` computes it: from `shlex.split` when it parses, else
from a plain whitespace split; `none` when there is no token. -/
def leadingBase (command : String) : Option String :=
  match shlexSplit command with
  | some [] => none
  | some (p :: _) => some (baseCmdOf p)
  | none => (pySplitWs command).head?.map baseCmdOf

/-- `ExecuteCommandTool._validate_command` (`main.py` lines 483-503).
Returns `(is_safe, reason)`; the `Except` error is the (unreachable in
practice) `IndexError` of the fallback `command.split()[0]` on input
whose `shlex` parse fails while the plain split is empty. -/
def validateCommand (command : String) : Except Unit (Bool × String) :=
  if matchesBlockedPattern command then
    Except.ok (false, "Matches blocked pattern")
  else
    match shlexSplit command with
    | some [] => Except.ok (false, "Empty command")
    | some (p :: _) =>
      let base := baseCmdOf p
      if base ∈ ALLOWED_COMMANDS then Except.ok (true, "OK")
      else Except.ok (false, "Command " ++ base ++ " not allowed")
    | none =>
      match pySplitWs command with
      | [] => Except.error ()
      | t :: _ =>
        let base := baseCmdOf t
        if base ∈ ALLOWED_COMMANDS then Except.ok (true, "OK")
        else Except.ok (false, "Command " ++ base ++ " not allowed")

/-- Decidable equality for validation results. -/
instance : DecidableEq (Except Unit (Bool × String))
  | .error x, .error y => isTrue (by cases x; cases y; rfl)
  | .ok x, .ok y =>
    if h : x = y then isTrue (congrArg Except.ok h)
    else isFalse fun hc => h (by injection hc)
  | .error _, .ok _ => isFalse fun hc => Except.noConfusion hc
  | .ok _, .error _ => isFalse fun hc => Except.noConfusion hc

/-! ## Progress relay (`autonomous_coder_pipeline.py`,
`Pipe._stream_agent_progress`, lines 603-652, and
`Pipe._format_progress_line`, lines 654-662) -/

/-- `log_content.strip().split("\n") if log_content.strip() else []`
(line 627): the relay line count of a feed snapshot. -/
def pollLines (content : String) : List String :=
  if pyStrip content = "" then [] else splitSep (Char.ofNat 10) (pyStrip content)

/-- One delta computation of the relay (lines 630-637): given the feed
snapshot and the line-count cursor, the non-blank new lines delivered
(in order) and the new cursor. -/
def pollDelta (content : String) (cursor : Nat) : List String × Nat :=
  let lines := pollLines content
  if lines.length > cursor then
    ((lines.drop cursor).filter (fun l => pyStrip l ≠ ""), lines.length)
  else ([], cursor)

/-- The module-level search for the failure-marker pattern, group 1
(lines 643-646): the text after the first failure marker, skipping
whitespace (including newlines, per `\s*`), up to the end of that line
(`.*` stops at a newline). -/
def extractFailReason (content : String) : Option String :=
  match findAfter ("[TASK_FAILED]".data) content.data with
  | none => none
  | some rest => some (String.mk ((rest.dropWhile pyIsSpace).takeWhile (fun c => c ≠ Char.ofNat 10)))

/-- A detected terminal marker. -/
inductive Terminal where
  | complete
  | failed (reason : Option String)
deriving DecidableEq

/-- The terminal-marker scan of the relay (lines 639-647): the success
marker is checked first on the whole feed content, then the failure
marker with its trailing reason. -/
def checkTerminal (content : String) : Option Terminal :=
  if pyIn "[TASK_COMPLETE]" content then some .complete
  else if pyIn "[TASK_FAILED]" content then some (.failed (extractFailReason content))
  else none

/-- `Pipe._format_progress_line`: lines opening with a `[hh:mm:ss]` tag
are rendered as `` `hh:mm:ss` `` plus the stripped remainder; other
lines are indented verbatim. -/
def formatProgressLine (line : String) : String :=
  match line.data with
  | '[' :: a :: b :: ':' :: c :: d :: ':' :: e :: f :: ']' :: rest =>
    if a.isDigit ∧ b.isDigit ∧ c.isDigit ∧ d.isDigit ∧ e.isDigit ∧ f.isDigit then
      "`" ++ String.mk [a, b, ':', c, d, ':', e, f] ++ "` " ++ pyStrip (String.mk rest) ++ "\n"
    else "  " ++ line ++ "\n"
  | _ => "  " ++ line ++ "\n"

/-! ## The result artifact `/opt/agent/result.json` -/

/-- The structured result record, as written by `TaskCompleteTool.execute`
and read back by `Pipe._get_task_result` / `Pipe._format_task_result`.
Defaults model the empty dict parsed from the `echo` fallback of an
empty JSON object:
every `result.get(...)` then yields a falsy value. -/
structure ResultJson where
  success : Bool := false
  summary : Option String := none
  files_changed : List String := []
  error : Option String := none
  pr_url : Option String := none
  branch_name : Option String := none
deriving DecidableEq

/-! ## `ProgressLogger` (`main.py` lines 83-132) and the agent effect trace.
Each `ProgressLogger.log` call appends one line
`"[" ++ timestamp ++ "] [" ++ level ++ "] " ++ message` to
`/opt/agent/progress.log`; the timestamp is wall-clock and carries no
information the claims depend on, so effects record level and message
and `renderLogLine` reconstitutes the file line for a given timestamp. -/

/-- One externally visible effect of the agent process: a progress-log
append (level, message) or the write of `/opt/agent/result.json`. -/
inductive Effect where
  | append (level : String) (message : String)
  | writeResultFile (r : ResultJson)
deriving DecidableEq

/-- Whether an effect is the result-file write. -/
def Effect.isWrite : Effect → Bool
  | .writeResultFile _ => true
  | .append _ _ => false

/-- The progress-log line a logged effect produces for timestamp `ts`
(`ProgressLogger.log`, lines 96-101). -/
def renderLogLine (ts level message : String) : String :=
  "[" ++ ts ++ "] [" ++ level ++ "] " ++ message

/-- `TaskCompleteTool.execute` (`main.py` lines 724-739): logs a SUCCESS
line, writes the result record to `/opt/agent/result.json`, then logs
the `[TASK_COMPLETE]` marker line (`ProgressLogger.complete`, lines
126-128).  Returns the effect trace and the tool result text.
`files_changed` is `None`-able in the source, hence the `Option`. -/
def taskCompleteExecute (summary : String) (files_changed : Option (List String)) :
    List Effect × String :=
  ( [ .append "SUCCESS" ("✅ Task complete: " ++ summary),
      .writeResultFile { success := true, summary := some summary,
                         files_changed := files_changed.getD [] },
      .append "DONE" ("[TASK_COMPLETE] " ++ summary) ],
    "Task marked as complete" )

/-! ## `CodingAgent.run` (`main.py` lines 879-963).
The model service and the interaction of the tools with the VM filesystem are
external: the script `Nat → IterResp` provides the outcome of each
model call of each iteration, and `toolExec` provides each requested
result text and effect trace of an invocation (the embedding of the
`_execute_tool` dispatch; its JSON-argument errors and per-tool behaviour are folded
into this oracle).  The conversation list `self.messages` is bookkeeping
none of the claims observe and is not tracked. -/

/-- `AgentConfig` (`main.py` lines 44-76), the fields `run` reads. -/
structure AgentConfig where
  task_id : String := ""
  repository_url : String := ""
  branch : String := "main"
  task_description : String := ""
  model : String := "gpt-4"
  workspace_dir : String := "/home/agent/workspace"
  max_iterations : Nat := 50

/-- One requested capability invocation (`tool_call` objects). -/
structure MToolCall where
  id : String
  name : String
  arguments : String
deriving DecidableEq

/-- One assistant message: the requested tool calls (empty list models a
falsy `message.tool_calls`) and the free-text content. -/
structure MMessage where
  tool_calls : List MToolCall
  content : Option String
deriving DecidableEq

/-- Outcome of the `_get_completion` call of one iteration: an exception, a
falsy response, or a message. -/
inductive IterResp where
  | raise (e : String)
  | empty
  | msg (m : MMessage)

/-- The tool-call loop of `CodingAgent.run` (lines 927-938): execute the
requested calls in order, appending each result to the conversation;
when a call named `task_complete` has been executed, stop (the method
returns, leaving the remaining calls unprocessed).  Returns the calls
actually executed (in order), their accumulated effects, and whether
completion was signalled. -/
def processToolCalls (toolExec : MToolCall → String × List Effect) :
    List MToolCall → List MToolCall × List Effect × Bool
  | [] => ([], [], false)
  | tc :: rest =>
    let effs := (toolExec tc).2
    if tc.name = "task_complete" then ([tc], effs, true)
    else
      let pr := processToolCalls toolExec rest
      (tc :: pr.1, effs ++ pr.2.1, pr.2.2)

/-- Result of the embedded `CodingAgent.run`. -/
structure RunResult where
  effects : List Effect
  executed : List MToolCall
  iterations : Nat
  task_completed : Bool
deriving DecidableEq

/-- The terminal exhaustion message of `CodingAgent.run` (line 963),
rendered through `ProgressLogger.fail` (lines 130-132). -/
def maxIterationsFail : Effect :=
  .append "FAIL" "[TASK_FAILED] Max iterations reached without completing task"

/-- The `for iteration in range(max_iterations)` loop of
`CodingAgent.run` (lines 908-963).  `remaining` is the fuel
(`max_iterations` minus iterations already run), `i` the current
zero-based iteration index.  A thought longer than 200 characters is
truncated by `ProgressLogger.thinking` (lines 113-118). -/
def runLoop (maxIter : Nat) (script : Nat → IterResp)
    (toolExec : MToolCall → String × List Effect) :
    Nat → Nat → List Effect → List MToolCall → RunResult
  | 0, i, effs, ex =>
    { effects := effs ++ [maxIterationsFail], executed := ex,
      iterations := i, task_completed := false }
  | remaining + 1, i, effs, ex =>
    let effs := effs ++ [.append "INFO"
      ("Iteration " ++ toString (i + 1) ++ "/" ++ toString maxIter)]
    match script i with
    | .raise e =>
      runLoop maxIter script toolExec remaining (i + 1)
        (effs ++ [.append "ERROR"
          ("❌ Error in iteration " ++ toString (i + 1) ++ ": " ++ e)]) ex
    | .empty =>
      runLoop maxIter script toolExec remaining (i + 1)
        (effs ++ [.append "ERROR" "❌ Empty response from LLM"]) ex
    | .msg m =>
      match m.tool_calls with
      | [] =>
        match m.content with
        | some c =>
          if c = "" then runLoop maxIter script toolExec remaining (i + 1) effs ex
          else
            let thought := if c.length > 200 then c.take 200 ++ "..." else c
            runLoop maxIter script toolExec remaining (i + 1)
              (effs ++ [.append "THINK" ("💭 " ++ thought)]) ex
        | none => runLoop maxIter script toolExec remaining (i + 1) effs ex
      | tc :: tcs =>
        let pr := processToolCalls toolExec (tc :: tcs)
        if pr.2.2 then
          { effects := effs ++ pr.2.1, executed := ex ++ pr.1,
            iterations := i + 1, task_completed := true }
        else
          runLoop maxIter script toolExec remaining (i + 1) (effs ++ pr.2.1) (ex ++ pr.1)

/-- `CodingAgent.run` (lines 879-963): the initial `Starting task` log,
`clone_repository` (whose external outcome is the `clone` argument; on
failure `run` logs the failure marker and returns), then the bounded
agent loop. -/
def agentRun (cfg : AgentConfig) (clone : Except String Unit)
    (script : Nat → IterResp) (toolExec : MToolCall → String × List Effect) : RunResult :=
  let pre : List Effect :=
    [ .append "INFO" ("Starting task: " ++ cfg.task_description),
      .append "INFO" ("Cloning repository: " ++ cfg.repository_url) ]
  match clone with
  | .error e =>
    { effects := pre ++ [.append "FAIL" ("[TASK_FAILED] Failed to clone repository: " ++ e)],
      executed := [], iterations := 0, task_completed := false }
  | .ok _ =>
    runLoop cfg.max_iterations script toolExec cfg.max_iterations 0
      (pre ++ [.append "SUCCESS" "✅ Repository cloned successfully"]) []

/-! ## Orchestrator pipeline (`autonomous_coder_pipeline.py`) -/

/-- `TaskStatus` (lines 42-49). -/
inductive TaskStatus where
  | pending
  | provisioning
  | running
  | completing
  | completed
  | failed
  | cancelled
deriving DecidableEq

/-- `Pipe.Valves` (lines 293-306).  Python object attributes are dynamic
(the docstring says the valves are editable in the Open WebUI UI), so
the attribute `DEFAULT_MODEL` — which line 474 reads but `__init__`
never sets — is modelled as an `Option` field: `none` means the
attribute is absent and reading it raises `AttributeError`. -/
structure ValvesM where
  PROXMOX_HOST : String
  PROXMOX_USER : String
  PROXMOX_PASSWORD : String
  PROXMOX_NODE : String
  AGENT_TEMPLATE_VMID : Nat
  OPENWEBUI_API_URL : String
  OPENWEBUI_API_KEY : String
  MAX_TASK_DURATION : Nat
  VM_CORES : Nat
  VM_MEMORY : Nat
  DEFAULT_MODEL : Option String

/-- `Pipe.Valves.__init__`: reads environment variables with the given
defaults (numeric parsing is `int(...)`; its exception on malformed
input is not modelled, no claim depends on it).  `DEFAULT_MODEL` is not
assigned, so the attribute is absent. -/
def valvesInit (env : String → Option String) : ValvesM where
  PROXMOX_HOST := (env "PROXMOX_HOST").getD "proxmox.local:8006"
  PROXMOX_USER := (env "PROXMOX_USER").getD "root@pam"
  PROXMOX_PASSWORD := (env "PROXMOX_PASSWORD").getD ""
  PROXMOX_NODE := (env "PROXMOX_NODE").getD "pve"
  AGENT_TEMPLATE_VMID := ((env "AGENT_TEMPLATE_VMID").bind String.toNat?).getD 9000
  OPENWEBUI_API_URL := (env "OPENWEBUI_API_URL").getD "http://localhost:3000"
  OPENWEBUI_API_KEY := (env "OPENWEBUI_API_KEY").getD ""
  MAX_TASK_DURATION := ((env "MAX_TASK_DURATION").bind String.toNat?).getD 3600
  VM_CORES := ((env "VM_CORES").bind String.toNat?).getD 2
  VM_MEMORY := ((env "VM_MEMORY").bind String.toNat?).getD 4096
  DEFAULT_MODEL := none

/-- Proxmox API calls the handler issues, as traced for the teardown
claims.  `destroy` is one invocation of `ProxmoxManager.destroy_vm`. -/
inductive PCall where
  | cloneVm
  | configVm
  | startVm
  | waitIp
  | execCmd
  | destroy
deriving DecidableEq

/-- Outcome oracle for one `ProxmoxManager.destroy_vm` call: whether the
graceful stop succeeds, whether the forced stop succeeds, and the error
raised by the final delete (`none` = delete succeeds). -/
structure StopOutcome where
  gracefulOk : Bool := true
  forcedOk : Bool := true
  deleteErr : Option String := none

/-- The three teardown actions of `ProxmoxManager.destroy_vm`. -/
inductive TearStep where
  | stopGraceful
  | stopForced
  | delete
deriving DecidableEq

/-- `ProxmoxManager.destroy_vm` (lines 255-278): attempt a graceful
stop; if it raises and `force` is set, attempt a forced stop (its own
failure swallowed); then delete the VM regardless of the stop outcome.
A delete failure is logged and re-raised (the returned `Option String`).
-/
def destroyVmSteps (force : Bool) (o : StopOutcome) : List TearStep × Option String :=
  let stops :=
    if o.gracefulOk then [TearStep.stopGraceful]
    else TearStep.stopGraceful :: (if force then [TearStep.stopForced] else [])
  (stops ++ [TearStep.delete], o.deleteErr)

/-- Where `ProxmoxManager.create_agent_vm` fails, when it fails:
during the clone (the `clone.post` / `_wait_for_task` phase), the
`config.put`, or the `status.start.post`. -/
inductive ProvStep where
  | clone
  | config
  | start
deriving DecidableEq

/-- How a provisioning step fails: an ordinary exception (caught by the
`except Exception` cleanup handler) or an `asyncio.CancelledError`
(a `BaseException` since Python 3.8, which `except Exception` does NOT
catch). -/
inductive ProvFailKind where
  | exc (msg : String)
  | cancelled
deriving DecidableEq

/-- Outcome oracle for one `ProxmoxManager.create_agent_vm` call. -/
structure CreateVmSpec where
  vmid : Nat := 10000
  failAt : Option (ProvStep × ProvFailKind) := none
  ip : Option String := none

/-- Whether the provisioning oracle is a cancellation. -/
def CreateVmSpec.isCancelled (s : CreateVmSpec) : Bool :=
  match s.failAt with
  | some (_, .cancelled) => true
  | _ => false

/-- `ProxmoxManager.create_agent_vm` (lines 129-185): clone the
template, configure, start, wait for an IP (absence of an IP is
non-fatal).  On an ordinary exception the `except Exception` handler
calls `destroy_vm` (its own failure swallowed by `except Exception:
pass`) and re-raises; a `CancelledError` bypasses that handler
entirely, so no cleanup destroy is issued.  Returns the issued calls
and either the failure kind or `(vmid, vm_name, ip)`. -/
def createAgentVm (taskId : String) (spec : CreateVmSpec) :
    List PCall × Except ProvFailKind (Nat × String × Option String) :=
  let name := "agent-" ++ taskId.take 8
  match spec.failAt with
  | some (.clone, .exc e) => ([PCall.cloneVm, PCall.destroy], .error (.exc e))
  | some (.clone, .cancelled) => ([PCall.cloneVm], .error .cancelled)
  | some (.config, .exc e) => ([PCall.cloneVm, PCall.configVm, PCall.destroy], .error (.exc e))
  | some (.config, .cancelled) => ([PCall.cloneVm, PCall.configVm], .error .cancelled)
  | some (.start, .exc e) =>
    ([PCall.cloneVm, PCall.configVm, PCall.startVm, PCall.destroy], .error (.exc e))
  | some (.start, .cancelled) =>
    ([PCall.cloneVm, PCall.configVm, PCall.startVm], .error .cancelled)
  | none => ([PCall.cloneVm, PCall.configVm, PCall.startVm, PCall.waitIp],
             .ok (spec.vmid, name, spec.ip))

/-! ## `Pipe._stream_agent_progress` (lines 603-652) -/

/-- External inputs of the streaming loop: the feed snapshot returned by
poll `k` (`none` = the `exec_command` raised, which is logged and
skipped), the elapsed wall-clock seconds at poll `k`, and an optional
poll index at which an external cancellation interrupts the loop. -/
structure StreamEnv where
  feed : Nat → Option String
  elapsed : Nat → Nat
  cancelAt : Option Nat := none

/-- How the streaming loop exited. -/
inductive StreamExit where
  | timeout
  | term (t : Terminal)
  | cancelled
deriving DecidableEq

/-- Result of the streaming loop. -/
structure StreamRes where
  yields : List String
  progressLog : List String
  errReason : Option String
  exit : StreamExit
deriving DecidableEq

/-- The timeout notice yielded at line 616. -/
def timeoutMsg (maxDuration : Nat) : String :=
  "\n⏰ **Task timeout** (exceeded " ++ toString maxDuration ++ "s)\n"

/-- The `while True` polling loop of `_stream_agent_progress`: each poll
first checks the deadline (strict `>`), then reads the feed, yields the
formatted non-blank new lines past the cursor, appends them to
`task.progress_log`, and scans the whole content for terminal markers
(`checkTerminal`); on the failure marker the extracted reason is stored
as `task.error`.  `fuel` bounds the unrolling of the unbounded Python
loop; `none` means the bound was reached before an exit. -/
def streamRunAux (env : StreamEnv) (maxDuration : Nat) :
    Nat → Nat → Nat → List String → List String → Option StreamRes
  | 0, _, _, _, _ => none
  | fuel + 1, k, cursor, ys, pl =>
    if env.cancelAt = some k then
      some { yields := ys, progressLog := pl, errReason := none, exit := .cancelled }
    else if env.elapsed k > maxDuration then
      some { yields := ys ++ [timeoutMsg maxDuration], progressLog := pl,
             errReason := none, exit := .timeout }
    else
      match env.feed k with
      | none => streamRunAux env maxDuration fuel (k + 1) cursor ys pl
      | some content =>
        let (newLines, c2) := pollDelta content cursor
        let ys2 := ys ++ newLines.map formatProgressLine
        let pl2 := pl ++ newLines
        match checkTerminal content with
        | some .complete =>
          some { yields := ys2, progressLog := pl2, errReason := none, exit := .term .complete }
        | some (.failed r) =>
          some { yields := ys2, progressLog := pl2, errReason := r, exit := .term (.failed r) }
        | none => streamRunAux env maxDuration fuel (k + 1) c2 ys2 pl2

/-- `Pipe._stream_agent_progress`, from poll 0 with cursor 0.  (When
reached from `_handle_coding_task`, `task.vmid` is always set, so the
early return on a missing vmid is not modelled.) -/
def streamRun (env : StreamEnv) (maxDuration fuel : Nat) : Option StreamRes :=
  streamRunAux env maxDuration fuel 0 0 [] []

/-! ## `Pipe._get_task_result` (lines 664-679) and
`Pipe._format_task_result` (lines 681-708) -/

/-- `Pipe._get_task_result`: reads and parses `/opt/agent/result.json`
in the VM.  The oracle `read` is the parsed record or the exception
text (exec failure or JSON decode failure), every exception being
caught and folded into an error record. -/
def getTaskResult (vmAssigned : Bool) (read : Except String ResultJson) : ResultJson :=
  if vmAssigned then
    match read with
    | .ok r => r
    | .error e => { success := false, error := some e }
  else { success := false, error := some "No VM" }

/-- `Pipe._format_task_result`: the final markdown block; on failure the
displayed error is `result.get("error") or task.error or "Unknown
error"` with Python truthiness. -/
def formatTaskResult (taskError : Option String) (r : ResultJson) : String :=
  if r.success then
    "\n---\n\n## ✅ Task Completed Successfully!\n\n"
    ++ (match r.pr_url with
        | some u => if u = "" then "" else "🔗 **Pull Request:** " ++ u ++ "\n"
        | none => "")
    ++ (match r.branch_name with
        | some b => if b = "" then "" else "🌿 **Branch:** `" ++ b ++ "`\n"
        | none => "")
    ++ (if r.files_changed ≠ [] then
          "\n📊 **Files Changed:** " ++ toString r.files_changed.length ++ "\n\n"
          ++ String.join ((r.files_changed.take 10).map (fun f => "  - `" ++ f ++ "`\n"))
          ++ (if r.files_changed.length > 10 then
                "  - ... and " ++ toString (r.files_changed.length - 10) ++ " more\n"
              else "")
        else "")
    ++ (match r.summary with
        | some s => if s = "" then "" else "\n📋 **Summary:**\n" ++ s ++ "\n"
        | none => "")
  else
    "\n---\n\n## ❌ Task Failed\n\n**Error:** "
    ++ pyOrD r.error (pyOrD taskError "Unknown error") ++ "\n"

/-! ## `Pipe._handle_coding_task` (lines 442-569) -/

/-- The fixed chunk yielded when no repository URL is found
(`_format_no_repo_message`, abridged to its heading; its full text is
inert markdown no claim inspects). -/
def noRepoMsg : String :=
  "## 🔍 Repository Required\n\nI detected a coding task request, but I need a repository URL to work on.\n"

/-- The chunk yielded when Proxmox is not configured (lines 460-468,
abridged to its heading). -/
def proxmoxNotConfiguredMsg : String :=
  "⚠️ **Proxmox not configured**\n"

/-- The task header yielded at lines 487-497. -/
def headerMsg (taskId url branch model desc : String) : String :=
  "# 🚀 Autonomous Coding Task `" ++ taskId ++ "`\n\n**Repository:** `" ++ url
  ++ "`\n**Branch:** `" ++ branch ++ "`\n**Model:** `" ++ model
  ++ "`\n\n**Task:** " ++ desc ++ "\n\n---\n\n"

/-- The provisioning banner (line 502). -/
def provisioningMsg : String := "## ⏳ Provisioning Agent VM...\n\n"

/-- The VM-ready banner (lines 522-531). -/
def vmReadyMsg (name : String) (vmid : Nat) (ip : Option String) : String :=
  "✅ **Agent VM Ready**\n- Name: `" ++ name ++ "`\n- VMID: `" ++ toString vmid
  ++ "`\n- IP: `" ++ pyOrD ip "pending..." ++ "`\n\n---\n\n## 📝 Agent Progress\n\n"

/-- The cancellation chunk (line 552). -/
def cancelMsg : String := "\n\n⚠️ **Task cancelled**\n"

/-- The failure chunk (line 559). -/
def failedMsg (e : String) : String := "\n\n❌ **Task Failed**\n\nError: " ++ e ++ "\n"

/-- The cleanup banner of the `finally` block (line 564). -/
def cleanupMsg : String := "\n---\n\n🧹 Cleaning up agent VM...\n"

/-- Teardown success chunk (line 567). -/
def destroyOkMsg : String := "✅ VM destroyed successfully.\n"

/-- Teardown failure chunk (line 569). -/
def destroyWarnMsg (e : String) : String := "⚠️ Failed to cleanup VM: " ++ e ++ "\n"

/-- Exceptions the handler generator can raise to its consumer. -/
inductive HExc where
  | attributeError
  | cancelledError
deriving DecidableEq

/-- External inputs of one `_handle_coding_task` execution. -/
structure HandlerIn where
  taskId : String := "t0000000"
  valves : ValvesM
  bodyModel : Option String := none
  repo : Option (String × String) := none
  taskDescription : String := ""
  proxmoxConfigured : Bool := true
  create : CreateVmSpec := {}
  injectFail : Option String := none
  stream : StreamEnv
  resultRead : Except String ResultJson := .ok {}
  finalDestroy : StopOutcome := {}

/-- Observable outcome of one `_handle_coding_task` execution. -/
structure HandlerOut where
  outputs : List String
  status : Option TaskStatus
  taskError : Option String
  taskResult : Option ResultJson
  vmAssigned : Bool
  calls : List PCall
  raised : Option HExc

/-- The `finally` block (lines 561-569): when `task.vmid` is set, yield
the cleanup banner, call `destroy_vm` once, and yield the success or
warning chunk (a destroy failure is caught locally). -/
def handlerFinally (vmAssigned : Bool) (fd : StopOutcome)
    (outputs : List String) (calls : List PCall) : List String × List PCall :=
  if vmAssigned then
    let err := (destroyVmSteps true fd).2
    (outputs ++ [cleanupMsg, match err with
                 | none => destroyOkMsg
                 | some e => destroyWarnMsg e],
     calls ++ [PCall.destroy])
  else (outputs, calls)

/-- `Pipe._handle_coding_task` (lines 442-569) as a function of its
external-outcome oracle `inp`.  Repository extraction and task-trigger
detection are external collaborators (spec section 1); `inp.repo` is the
result of `_extract_repo_info` and `inp.taskDescription` that of
`_extract_task_description`.  `fuel` bounds the progress-polling loop;
`none` is returned only when that bound is hit mid-stream. -/
def handleCodingTask (inp : HandlerIn) (fuel : Nat) : Option HandlerOut :=
  match inp.repo with
  | none =>
    some { outputs := [noRepoMsg], status := none, taskError := none,
           taskResult := none, vmAssigned := false, calls := [], raised := none }
  | some (url, branch) =>
    if ¬ inp.proxmoxConfigured then
      some { outputs := [proxmoxNotConfiguredMsg], status := none, taskError := none,
             taskResult := none, vmAssigned := false, calls := [], raised := none }
    else
      -- line 474: body.get("model", self.valves.DEFAULT_MODEL) — the
      -- default argument is evaluated before the .get call, so a missing
      -- DEFAULT_MODEL attribute raises AttributeError unconditionally.
      match inp.valves.DEFAULT_MODEL with
      | none =>
        some { outputs := [], status := none, taskError := none,
               taskResult := none, vmAssigned := false, calls := [],
               raised := some .attributeError }
      | some dm =>
        let model := inp.bodyModel.getD dm
        let header := headerMsg inp.taskId url branch model inp.taskDescription
        -- try block: status := PROVISIONING, provisioning banner, create VM
        let outs0 := [header, provisioningMsg]
        let (ccalls, cres) := createAgentVm inp.taskId inp.create
        match cres with
        | .error (.exc e) =>
          -- except Exception: status FAILED; finally: task.vmid was never
          -- assigned, so no teardown happens here.
          some { outputs := outs0 ++ [failedMsg e], status := some .failed,
                 taskError := some e, taskResult := none, vmAssigned := false,
                 calls := ccalls, raised := none }
        | .error .cancelled =>
          -- except asyncio.CancelledError: status CANCELLED, re-raise;
          -- finally: no vmid, no teardown.
          some { outputs := outs0 ++ [cancelMsg], status := some .cancelled,
                 taskError := none, taskResult := none, vmAssigned := false,
                 calls := ccalls, raised := some .cancelledError }
        | .ok (vmid, name, ip) =>
          -- task.vmid assigned (line 517); VM-ready banner; status RUNNING
          let outs1 := outs0 ++ [vmReadyMsg name vmid ip]
          match inp.injectFail with
          | some e =>
            -- _inject_and_start_agent raised: except Exception, then finally
            let (fouts, fcalls) :=
              handlerFinally true inp.finalDestroy (outs1 ++ [failedMsg e])
                (ccalls ++ [PCall.execCmd])
            some { outputs := fouts, status := some .failed, taskError := some e,
                   taskResult := none, vmAssigned := true, calls := fcalls,
                   raised := none }
          | none =>
            let calls1 := ccalls ++ [PCall.execCmd, PCall.execCmd]
            match streamRun inp.stream inp.valves.MAX_TASK_DURATION fuel with
            | none => none
            | some sres =>
              let outs2 := outs1 ++ sres.yields
              match sres.exit with
              | .cancelled =>
                let (fouts, fcalls) :=
                  handlerFinally true inp.finalDestroy (outs2 ++ [cancelMsg]) calls1
                some { outputs := fouts, status := some .cancelled,
                       taskError := sres.errReason, taskResult := none,
                       vmAssigned := true, calls := fcalls,
                       raised := some .cancelledError }
              | _ =>
                -- timeout or terminal marker: lines 542-548 run identically —
                -- retrieve the result, mark the task COMPLETED, format.
                let result := getTaskResult true inp.resultRead
                let outs3 := outs2 ++ [formatTaskResult sres.errReason result]
                let (fouts, fcalls) := handlerFinally true inp.finalDestroy outs3 calls1
                some { outputs := fouts, status := some .completed,
                       taskError := sres.errReason, taskResult := some result,
                       vmAssigned := true, calls := fcalls, raised := none }

/-! ## Concrete inputs used by the closed theorems -/

/-- Valves with an orchestrator deadline of 10 time units and (counter to
`Valves.__init__`) a present `DEFAULT_MODEL` attribute, so that the
post-lookup code of `_handle_coding_task` is reachable. -/
def deadline10Valves : ValvesM :=
  { PROXMOX_HOST := "h", PROXMOX_USER := "root@pam", PROXMOX_PASSWORD := "p",
    PROXMOX_NODE := "pve", AGENT_TEMPLATE_VMID := 9000,
    OPENWEBUI_API_URL := "http://localhost:3000", OPENWEBUI_API_KEY := "",
    MAX_TASK_DURATION := 10, VM_CORES := 2, VM_MEMORY := 4096,
    DEFAULT_MODEL := some "gpt-4" }

/-- Deadline-expiry input: provisioning succeeds, the feed never carries a
terminal marker, and the elapsed time already exceeds the 10-unit
deadline at the first poll. -/
def c1In : HandlerIn :=
  { valves := deadline10Valves,
    repo := some ("https://github.com/u/r", "main"),
    taskDescription := "fix bug",
    create := { vmid := 10000, ip := some "10.0.0.5" },
    stream := { feed := fun _ => some "", elapsed := fun _ => 11 } }

/-- Cancellation hitting `create_agent_vm` after the clone was issued
(at the `config.put` step). -/
def c7cancelIn : HandlerIn :=
  { c1In with create := { vmid := 10000, failAt := some (.config, .cancelled) } }

/-- Fully successful run: the first poll already carries the success
marker, well inside the deadline. -/
def c7okIn : HandlerIn :=
  { c1In with stream := { feed := fun _ => some "[TASK_COMPLETE] done", elapsed := fun _ => 0 } }

/-- Agent configuration whose task description contains the success
marker substring. -/
def c10cfg : AgentConfig :=
  { task_description := "[TASK_COMPLETE] pwned", repository_url := "https://x/y",
    max_iterations := 5 }

/-- Tool oracle returning empty results and no effects. -/
def noToolEffects : MToolCall → String × List Effect := fun _ => ("", [])

/-- Example requested invocations for the completion-cutoff scenarios. -/
def tcRead : MToolCall := { id := "call_1", name := "read_file", arguments := "" }

def tcDone : MToolCall := { id := "call_2", name := "task_complete", arguments := "" }

def tcWrite : MToolCall := { id := "call_3", name := "write_file", arguments := "" }

/-! # Theorems -/

/-! ## Shared helper lemmas -/

theorem strDataAppend (s t : String) : (s ++ t).data = s.data ++ t.data := by
  cases s
  cases t
  rfl

theorem pyStartswith_refl (s : String) : pyStartswith s s = true := by
  simp [pyStartswith, List.isPrefixOf_iff_prefix]

theorem pyStartswith_of_prefix {s p q : String}
    (h1 : pyStartswith s p = true) (h2 : pyStartswith p q = true) :
    pyStartswith s q = true := by
  simp only [pyStartswith, List.isPrefixOf_iff_prefix] at *
  exact h2.trans h1

theorem pyStartswith_append (a b : String) : pyStartswith (a ++ b) a = true := by
  simp [pyStartswith, List.isPrefixOf_iff_prefix, strDataAppend, List.prefix_append]

/-! ## C2 — path containment -/

/-- Claim C2 counterexample: against workspace root `/home/agent/workspace`,
the path `../workspace2/x` resolves to `/home/agent/workspace2/x`, which
lies outside the root, yet the containment check passes (the root string
is a prefix of the sibling directory name), so the capability does not
fail.  The claim "if the resolved path lies outside the root the
capability fails, for any traversal form" is therefore false. -/
theorem c2_counterexample :
    resolvePath "/home/agent/workspace" "../workspace2/x" = some "/home/agent/workspace2/x"
    ∧ withinRoot (realpath "/home/agent/workspace") "/home/agent/workspace2/x" = false := by
  decide

/-- Claim C2 (amended): a capability path fails with the containment
error exactly when the canonicalized root is not a string prefix of the
resolved path.  Consequently every resolved path inside the root is
accepted, and a resolved path outside the root is rejected unless it is
a prefix collision (a sibling whose name extends the root string, as in
the counterexample).  The scenario traversals `../../etc/passwd` and the
absolute `/etc/passwd` are rejected; the model has no filesystem, so
rejection is independent of file existence. -/
theorem c2_amended : ∀ workspace_dir path : String,
    (∀ fp, resolvePath workspace_dir path = some fp →
        pyStartswith fp (realpath workspace_dir) = true)
    ∧ (withinRoot (realpath workspace_dir)
          (realpath (osPathJoin (realpath workspace_dir) path)) = true →
        (resolvePath workspace_dir path).isSome = true)
    ∧ (withinRoot (realpath workspace_dir)
          (realpath (osPathJoin (realpath workspace_dir) path)) = false →
        resolvePath workspace_dir path = none
        ∨ isPrefixCollision (realpath workspace_dir)
            (realpath (osPathJoin (realpath workspace_dir) path)) = true)
    ∧ resolvePath "/home/agent/workspace" "../../etc/passwd" = none
    ∧ resolvePath "/home/agent/workspace" "/etc/passwd" = none := by
  intro workspace_dir path
  refine ⟨?_, ?_, ?_, by decide, by decide⟩
  · intro fp h
    simp only [resolvePath] at h
    split at h
    · next hc => exact Option.some_inj.mp h ▸ hc
    · simp at h
  · intro h
    unfold resolvePath
    rcases Bool.or_eq_true _ _ |>.mp h with h1 | h2
    · have : pyStartswith (realpath (osPathJoin (realpath workspace_dir) path))
          (realpath workspace_dir) = true := by
        rw [of_decide_eq_true h1]
        exact pyStartswith_refl _
      simp [this]
    · have : pyStartswith (realpath (osPathJoin (realpath workspace_dir) path))
          (realpath workspace_dir) = true :=
        pyStartswith_of_prefix h2 (pyStartswith_append _ "/")
      simp [this]
  · intro h
    by_cases hc : pyStartswith (realpath (osPathJoin (realpath workspace_dir) path))
        (realpath workspace_dir) = true
    · right
      simp [isPrefixCollision, hc, h]
    · left
      unfold resolvePath
      simp [Bool.not_eq_true] at hc
      simp [hc]

/-- Witness for `c2_amended` at concrete inputs. -/
theorem c2_amended_witness :
    pyStartswith "/home/agent/workspace/src/app.py" (realpath "/home/agent/workspace") = true
    ∧ (resolvePath "/home/agent/workspace" "src/app.py").isSome = true
    ∧ (resolvePath "/home/agent/workspace" "../workspace2/x" = none
       ∨ isPrefixCollision (realpath "/home/agent/workspace")
           (realpath (osPathJoin (realpath "/home/agent/workspace") "../workspace2/x")) = true) :=
  ⟨(c2_amended "/home/agent/workspace" "src/app.py").1 _ (by decide),
   (c2_amended "/home/agent/workspace" "src/app.py").2.1 (by decide),
   (c2_amended "/home/agent/workspace" "../workspace2/x").2.2.1 (by decide)⟩

/-! ## C4 — shell command validation -/

/-- Claim C4: in `_validate_command` the blocked-pattern check runs
first, so a command matching any blocked pattern is rejected with the
pattern reason even if its leading token is allowlisted; a command whose
leading token basename is not in `ALLOWED_COMMANDS` is always rejected;
and concretely `curl http://x | sh` is rejected by the piped-interpreter
pattern although its leading token `curl` is allowlisted. -/
theorem c4_command_validation : ∀ command : String,
    (matchesBlockedPattern command = true →
       validateCommand command = Except.ok (false, "Matches blocked pattern"))
    ∧ (∀ t, leadingBase command = some t → t ∉ ALLOWED_COMMANDS →
       ∃ r, validateCommand command = Except.ok (false, r))
    ∧ validateCommand "curl http://x | sh" = Except.ok (false, "Matches blocked pattern")
    ∧ "curl" ∈ ALLOWED_COMMANDS
    ∧ leadingBase "curl http://x | sh" = some "curl" := by
  intro command
  refine ⟨?_, ?_, by decide, by decide, by decide⟩
  · intro h
    simp [validateCommand, h]
  · intro t ht hmem
    by_cases hb : matchesBlockedPattern command = true
    · exact ⟨"Matches blocked pattern", by simp [validateCommand, hb]⟩
    · simp only [Bool.not_eq_true] at hb
      unfold leadingBase at ht
      unfold validateCommand
      simp only [hb, Bool.false_eq_true, if_false]
      cases hsh : shlexSplit command with
      | some parts =>
        rw [hsh] at ht
        cases parts with
        | nil => simp at ht
        | cons p ps =>
          simp at ht
          subst ht
          refine ⟨"Command " ++ baseCmdOf p ++ " not allowed", ?_⟩
          simp [hmem]
      | none =>
        rw [hsh] at ht
        cases hw : pySplitWs command with
        | nil => rw [hw] at ht; simp at ht
        | cons a as =>
          rw [hw] at ht
          simp at ht
          subst ht
          refine ⟨"Command " ++ baseCmdOf a ++ " not allowed", ?_⟩
          simp [hmem]

/-- Witness for `c4_command_validation`: the pattern branch fires on
`rm -rf /`, and an unknown leading token is rejected. -/
theorem c4_command_validation_witness :
    validateCommand "rm -rf /" = Except.ok (false, "Matches blocked pattern")
    ∧ ∃ r, validateCommand "evilcmd --x" = Except.ok (false, r) :=
  ⟨(c4_command_validation "rm -rf /").1 (by decide),
   (c4_command_validation "evilcmd --x").2.1 "evilcmd" (by decide) (by decide)⟩

/-! ## C5 — progress relay delta -/

/-- Claim C5 counterexample: a feed of 4 lines polled from cursor 0
returns 3 entries, not `4 - 0`: the blank interior line counts toward
the cursor but is filtered out of the delivered entries
(`if line.strip()`), so "returns exactly n - c new entries" fails. -/
theorem c5_counterexample :
    (pollLines "a\n\nb\nc").length = 4
    ∧ (pollDelta "a\n\nb\nc" 0).1.length ≠ (pollLines "a\n\nb\nc").length - 0
    ∧ (pollDelta "a\n\nb\nc" 0).1 = ["a", "b", "c"] := by
  decide

/-- Claim C5 (amended): a poll from cursor `c ≤ n` over a feed of `n`
lines delivers exactly the non-blank lines among lines `c..n-1`, in feed
order (so entries are never re-delivered and never reordered), advances
the cursor to `n`, and a repeated poll of unchanged content from cursor
`n` delivers nothing and leaves the cursor at `n`; when none of the new
lines is blank — always the case for logger-written feeds — the count is
exactly `n - c`. -/
theorem c5_amended : ∀ (content : String) (c : Nat),
    c ≤ (pollLines content).length →
    (pollDelta content c).1 = ((pollLines content).drop c).filter (fun l => pyStrip l ≠ "")
    ∧ (pollDelta content c).2 = (pollLines content).length
    ∧ pollDelta content (pollLines content).length = ([], (pollLines content).length)
    ∧ ((∀ l ∈ (pollLines content).drop c, pyStrip l ≠ "") →
       (pollDelta content c).1.length = (pollLines content).length - c) := by
  intro content c hc
  have hrep : pollDelta content (pollLines content).length
      = ([], (pollLines content).length) := by
    simp only [pollDelta]
    rw [if_neg (lt_irrefl _)]
  by_cases h : (pollLines content).length > c
  · have hd1 : (pollDelta content c).1
        = ((pollLines content).drop c).filter (fun l => pyStrip l ≠ "") := by
      simp only [pollDelta]
      rw [if_pos h]
    have hd2 : (pollDelta content c).2 = (pollLines content).length := by
      simp only [pollDelta]
      rw [if_pos h]
    refine ⟨hd1, hd2, hrep, ?_⟩
    intro hall
    have hfil : ((pollLines content).drop c).filter (fun l => pyStrip l ≠ "")
        = (pollLines content).drop c :=
      List.filter_eq_self.mpr fun a ha => decide_eq_true (hall a ha)
    rw [hd1, hfil, List.length_drop]
  · have hceq : c = (pollLines content).length := le_antisymm hc (not_lt.mp h)
    subst hceq
    refine ⟨?_, ?_, hrep, ?_⟩
    · rw [hrep]
      simp [List.drop_length]
    · rw [hrep]
    · intro _
      rw [hrep]
      simp

/-- Witness for `c5_amended` at a concrete two-line feed and cursor 1. -/
theorem c5_amended_witness :
    (pollDelta "x\ny" 1).1 = ["y"] ∧ (pollDelta "x\ny" 1).2 = 2 :=
  ⟨((c5_amended "x\ny" 1 (by decide)).1).trans (by decide),
   ((c5_amended "x\ny" 1 (by decide)).2.1).trans (by decide)⟩

/-! ## C8 — failure marker and reason extraction -/

/-- Claim C8 counterexample: when both markers occur in the feed, the
relay checks `[TASK_COMPLETE]` first (line 640) and reports terminal
success, so "whenever `[TASK_FAILED]` appears anywhere the relay reports
terminal failure" is false. -/
theorem c8_counterexample :
    pyIn "[TASK_FAILED]" "[TASK_COMPLETE] done\n[09:00:02] [TASK_FAILED] disk full" = true
    ∧ checkTerminal "[TASK_COMPLETE] done\n[09:00:02] [TASK_FAILED] disk full"
        = some Terminal.complete := by
  decide

/-- Claim C8 (amended): when the failure marker appears anywhere in the
feed content and the success marker does not, the relay reports terminal
failure with the reason extracted as the text after the first marker
occurrence and any following whitespace, up to the end of that line, and
such a reason always exists; in particular the scenario feed
`[09:00:01] [TASK_FAILED] disk full` yields the reason `disk full`. -/
theorem c8_amended :
    (∀ content : String, pyIn "[TASK_FAILED]" content = true →
       pyIn "[TASK_COMPLETE]" content = false →
       checkTerminal content = some (Terminal.failed (extractFailReason content))
       ∧ (extractFailReason content).isSome = true)
    ∧ checkTerminal "[09:00:01] [TASK_FAILED] disk full"
        = some (Terminal.failed (some "disk full"))
    ∧ extractFailReason "[09:00:01] [TASK_FAILED] disk full" = some "disk full" := by
  refine ⟨?_, by decide, by decide⟩
  intro content h1 h2
  constructor
  · simp [checkTerminal, h1, h2]
  · unfold pyIn at h1
    unfold extractFailReason
    cases hf : findAfter ("[TASK_FAILED]".data) content.data with
    | none => rw [hf] at h1; simp at h1
    | some rest => simp

/-- Witness for `c8_amended` at a concrete feed with only the failure
marker. -/
theorem c8_amended_witness :
    checkTerminal "x [TASK_FAILED] oops"
      = some (Terminal.failed (extractFailReason "x [TASK_FAILED] oops"))
    ∧ (extractFailReason "x [TASK_FAILED] oops").isSome = true :=
  c8_amended.1 "x [TASK_FAILED] oops" (by decide) (by decide)

/-! ## C9 — sequential tool-call processing with completion cutoff -/

/-- Claim C9: tool calls of one model response execute sequentially in
the requested order; once the call named `task_complete` executes, the
run is marked complete and the remaining calls of that response are not
processed.  A response without a completion call executes every call in
order without marking completion. -/
theorem c9_completion_cutoff : ∀ toolExec : MToolCall → String × List Effect,
    (∀ (l1 : List MToolCall) (tc : MToolCall) (l2 : List MToolCall),
       (∀ c ∈ l1, c.name ≠ "task_complete") → tc.name = "task_complete" →
       (processToolCalls toolExec (l1 ++ tc :: l2)).1 = l1 ++ [tc]
       ∧ (processToolCalls toolExec (l1 ++ tc :: l2)).2.2 = true)
    ∧ (∀ l : List MToolCall, (∀ c ∈ l, c.name ≠ "task_complete") →
       (processToolCalls toolExec l).1 = l
       ∧ (processToolCalls toolExec l).2.2 = false) := by
  intro toolExec
  constructor
  · intro l1
    induction l1 with
    | nil =>
      intro tc l2 _ htc
      simp [processToolCalls, htc]
    | cons a l ih =>
      intro tc l2 h1 htc
      have ha : a.name ≠ "task_complete" := h1 a (List.mem_cons_self a l)
      have hrest := ih tc l2 (fun c hc => h1 c (List.mem_cons_of_mem a hc)) htc
      simp [processToolCalls, ha, hrest.1, hrest.2]
  · intro l
    induction l with
    | nil => intro _; simp [processToolCalls]
    | cons a l ih =>
      intro h
      have ha : a.name ≠ "task_complete" := h a (List.mem_cons_self a l)
      have hrest := ih fun c hc => h c (List.mem_cons_of_mem a hc)
      simp [processToolCalls, ha, hrest.1, hrest.2]

/-- Witness for `c9_completion_cutoff`: of three requested calls with the
completion call second, exactly the first two execute and the run is
marked complete. -/
theorem c9_completion_cutoff_witness :
    (processToolCalls noToolEffects [tcRead, tcDone, tcWrite]).1 = [tcRead, tcDone]
    ∧ (processToolCalls noToolEffects [tcRead, tcDone, tcWrite]).2.2 = true :=
  (c9_completion_cutoff noToolEffects).1 [tcRead] tcDone [tcWrite] (by decide) (by decide)

/-! ## C6 — bounded agent loop with distinct exhaustion report -/

theorem runLoop_iterations_le (maxIter : Nat) (script : Nat → IterResp)
    (toolExec : MToolCall → String × List Effect) :
    ∀ (rem i : Nat) (effs : List Effect) (ex : List MToolCall),
    (runLoop maxIter script toolExec rem i effs ex).iterations ≤ i + rem := by
  intro rem
  induction rem with
  | zero =>
    intro i effs ex
    simp [runLoop]
  | succ n ih =>
    intro i effs ex
    simp only [runLoop]
    split
    · exact le_trans (ih _ _ _) (by omega)
    · exact le_trans (ih _ _ _) (by omega)
    · split
      · split
        · split
          · exact le_trans (ih _ _ _) (by omega)
          · exact le_trans (ih _ _ _) (by omega)
        · exact le_trans (ih _ _ _) (by omega)
      · split
        · exact show i + 1 ≤ i + (n + 1) by omega
        · exact le_trans (ih _ _ _) (by omega)

theorem runLoop_exhausted (maxIter : Nat) (script : Nat → IterResp)
    (toolExec : MToolCall → String × List Effect) :
    ∀ (rem i : Nat) (effs : List Effect) (ex : List MToolCall),
    (runLoop maxIter script toolExec rem i effs ex).task_completed = false →
    (runLoop maxIter script toolExec rem i effs ex).iterations = i + rem
    ∧ (runLoop maxIter script toolExec rem i effs ex).effects.getLast?
        = some maxIterationsFail := by
  intro rem
  induction rem with
  | zero =>
    intro i effs ex _
    refine ⟨by simp [runLoop], ?_⟩
    simp [runLoop, List.getLast?_concat]
  | succ n ih =>
    intro i effs ex h
    simp only [runLoop] at h ⊢
    revert h
    split
    · intro h
      exact (ih _ _ _ h).imp (fun hh => by omega) id
    · intro h
      exact (ih _ _ _ h).imp (fun hh => by omega) id
    · split
      · split
        · split
          · intro h
            exact (ih _ _ _ h).imp (fun hh => by omega) id
          · intro h
            exact (ih _ _ _ h).imp (fun hh => by omega) id
        · intro h
          exact (ih _ _ _ h).imp (fun hh => by omega) id
      · split
        · intro h
          simp at h
        · intro h
          exact (ih _ _ _ h).imp (fun hh => by omega) id

/-- Claim C6: started with a successful clone, `CodingAgent.run` executes
at most `max_iterations` iterations (every path of the embedded loop
terminates by construction), and an execution that ends without the
completion capability having been invoked has run all `max_iterations`
iterations and reports exhaustion as its final progress entry — the
distinct `[TASK_FAILED] Max iterations reached without completing task`
marker, separate from the per-iteration model/capability error entries. -/
theorem c6_loop_bounded : ∀ (cfg : AgentConfig) (script : Nat → IterResp)
    (toolExec : MToolCall → String × List Effect),
    (agentRun cfg (.ok ()) script toolExec).iterations ≤ cfg.max_iterations
    ∧ ((agentRun cfg (.ok ()) script toolExec).task_completed = false →
       (agentRun cfg (.ok ()) script toolExec).iterations = cfg.max_iterations
       ∧ (agentRun cfg (.ok ()) script toolExec).effects.getLast?
           = some maxIterationsFail) := by
  intro cfg script toolExec
  constructor
  · simpa using runLoop_iterations_le cfg.max_iterations script toolExec
      cfg.max_iterations 0 _ []
  · intro h
    have := runLoop_exhausted cfg.max_iterations script toolExec
      cfg.max_iterations 0 _ [] (by simpa [agentRun] using h)
    simpa [agentRun] using this

/-- Witness for `c6_loop_bounded`: a 2-iteration budget with a script
that never completes runs exactly 2 iterations and ends on the
exhaustion marker. -/
theorem c6_loop_bounded_witness :
    (agentRun { max_iterations := 2 } (.ok ()) (fun _ => .empty) noToolEffects).iterations = 2
    ∧ (agentRun { max_iterations := 2 } (.ok ()) (fun _ => .empty) noToolEffects).effects.getLast?
        = some maxIterationsFail :=
  (c6_loop_bounded { max_iterations := 2 } (fun _ => .empty) noToolEffects).2 (by decide)

/-! ## C10 — result artifact precedes the completion marker -/

/-- Claim C10 counterexample: the `[TASK_COMPLETE]` substring can be
appended to the progress log with no result write anywhere before it —
here `run` logs `Starting task: <description>` (line 881) for a task
description that contains the marker, and the trace holds no
`result.json` write at all — so "whenever the marker is appended the
result artifact has already been written" is false for the program. -/
theorem c10_counterexample :
    (agentRun c10cfg (.error "network down") (fun _ => .empty) noToolEffects).effects.head?
      = some (.append "INFO" "Starting task: [TASK_COMPLETE] pwned")
    ∧ pyIn "[TASK_COMPLETE]" "Starting task: [TASK_COMPLETE] pwned" = true
    ∧ (agentRun c10cfg (.error "network down") (fun _ => .empty) noToolEffects).effects.all
        (fun e => !e.isWrite) = true := by
  decide

/-- Claim C10 (amended): `TaskCompleteTool.execute` itself persists the
result record `{success, summary, files_changed}` to
`/opt/agent/result.json` strictly before appending its `[TASK_COMPLETE]`
marker line, so a marker logged by the completion capability is always
preceded by the result write; only marker text echoed from elsewhere
(task description, model output) lacks that guarantee. -/
theorem c10_amended : ∀ (summary : String) (files_changed : Option (List String)),
    (taskCompleteExecute summary files_changed).1 =
      [ Effect.append "SUCCESS" ("✅ Task complete: " ++ summary),
        Effect.writeResultFile
          { success := true, summary := some summary,
            files_changed := files_changed.getD [] },
        Effect.append "DONE" ("[TASK_COMPLETE] " ++ summary) ]
    ∧ (taskCompleteExecute summary files_changed).2 = "Task marked as complete" :=
  fun _ _ => ⟨rfl, rfl⟩

/-! ## C3 — DEFAULT_MODEL AttributeError -/

/-- Claim C3: with Proxmox configured and a repository URL extracted, the
task-handling generator raises `AttributeError` before emitting the task
header (the output list is empty, no task is created, no Proxmox call is
issued): line 474 evaluates `self.valves.DEFAULT_MODEL` as the
dictionary-get default, the `Valves` constructed by `__init__` defines
no `DEFAULT_MODEL` attribute, and the default expression is evaluated
even when the request body supplies a `model` key (`bodyModel` here is
arbitrary, including `some`). -/
theorem c3_default_model_attribute_error :
    ∀ (env : String → Option String) (bodyModel : Option String)
      (taskId url branch desc : String) (create : CreateVmSpec)
      (injectFail : Option String) (stream : StreamEnv)
      (resultRead : Except String ResultJson) (fd : StopOutcome) (fuel : Nat),
    handleCodingTask
      { taskId := taskId, valves := valvesInit env, bodyModel := bodyModel,
        repo := some (url, branch), taskDescription := desc,
        proxmoxConfigured := true, create := create, injectFail := injectFail,
        stream := stream, resultRead := resultRead, finalDestroy := fd } fuel
    = some { outputs := [], status := none, taskError := none, taskResult := none,
             vmAssigned := false, calls := [], raised := some HExc.attributeError } := by
  intros
  rfl

/-! ## C7 — exactly-one teardown and the destroy protocol -/

/-- Claim C7 counterexample: a cancellation (`CancelledError`, a
`BaseException`) hitting `create_agent_vm` after the clone was issued is
not caught by the `except Exception` cleanup handler of that method, and
`task.vmid` has not been assigned yet, so the `finally` teardown is
skipped as well: a VM was cloned (the trace holds the clone call) but
zero destroy calls are issued, refuting "exactly one destroy call on
every exit path — including cancellation". -/
theorem c7_counterexample :
    ((handleCodingTask c7cancelIn 3).map fun r =>
       (r.calls.count PCall.destroy, r.calls.count PCall.cloneVm, r.status, r.raised))
    = some (0, 1, some TaskStatus.cancelled, some HExc.cancelledError) := by
  decide

/-- Claim C7 (amended): `destroy_vm` attempts the graceful stop first,
attempts the forced stop exactly when the graceful stop failed and
`force` is set, and always proceeds to the deletion; and every handler
execution that reaches provisioning (repository found, Proxmox
configured, model lookup succeeding) issues exactly one destroy call —
on success, failure, timeout, provisioning failure (the internal cleanup
destroy) and stream-phase cancellation — provided provisioning is not
itself interrupted by a cancellation (the counterexample path, which
issues zero destroy calls). -/
theorem c7_amended :
    (∀ (force : Bool) (o : StopOutcome),
       (destroyVmSteps force o).1 =
         TearStep.stopGraceful ::
           ((if ¬ o.gracefulOk ∧ force then [TearStep.stopForced] else [])
             ++ [TearStep.delete]))
    ∧ (∀ (inp : HandlerIn) (fuel : Nat) (r : HandlerOut),
       inp.repo.isSome = true → inp.proxmoxConfigured = true →
       inp.valves.DEFAULT_MODEL.isSome = true → inp.create.isCancelled = false →
       handleCodingTask inp fuel = some r → r.calls.count PCall.destroy = 1) := by
  constructor
  · intro force o
    unfold destroyVmSteps
    cases hg : o.gracefulOk
    · cases force <;> simp
    · simp
  · intro inp fuel r h1 h2 h3 h4 h5
    obtain ⟨⟨url, branch⟩, hrep⟩ := Option.isSome_iff_exists.mp h1
    obtain ⟨dm, hdm⟩ := Option.isSome_iff_exists.mp h3
    rcases hfa : inp.create.failAt with _ | ⟨step, kind⟩
    · -- provisioning succeeds
      rcases hif : inp.injectFail with _ | e
      · cases hst : streamRun inp.stream inp.valves.MAX_TASK_DURATION fuel with
        | none =>
          simp [handleCodingTask, hrep, h2, hdm, createAgentVm, hfa, hif, hst] at h5
        | some sres =>
          cases hex : sres.exit with
          | timeout =>
            simp [handleCodingTask, hrep, h2, hdm, createAgentVm, hfa, hif, hst, hex,
              handlerFinally] at h5
            subst h5
            rfl
          | term t =>
            simp [handleCodingTask, hrep, h2, hdm, createAgentVm, hfa, hif, hst, hex,
              handlerFinally] at h5
            subst h5
            rfl
          | cancelled =>
            simp [handleCodingTask, hrep, h2, hdm, createAgentVm, hfa, hif, hst, hex,
              handlerFinally] at h5
            subst h5
            rfl
      · simp [handleCodingTask, hrep, h2, hdm, createAgentVm, hfa, hif,
          handlerFinally] at h5
        subst h5
        rfl
    · -- provisioning fails
      cases kind with
      | cancelled =>
        rw [CreateVmSpec.isCancelled, hfa] at h4
        simp at h4
      | exc e =>
        cases step <;>
          · simp [handleCodingTask, hrep, h2, hdm, createAgentVm, hfa] at h5
            subst h5
            rfl

/-- Witness for `c7_amended`: a fully successful run issues exactly one
destroy call, and the concrete failing-stop teardown performs graceful
stop, forced stop, then delete. -/
theorem c7_amended_witness :
    ((handleCodingTask c7okIn 3).map fun r => r.calls.count PCall.destroy) = some 1
    ∧ (destroyVmSteps true { gracefulOk := false }).1 =
        TearStep.stopGraceful ::
          ((if ¬ (false : Bool) ∧ true then [TearStep.stopForced] else [])
            ++ [TearStep.delete]) := by
  constructor
  · cases h : handleCodingTask c7okIn 3 with
    | none =>
      have hs : (handleCodingTask c7okIn 3).isSome = true := by decide
      rw [h] at hs
      simp at hs
    | some r =>
      have := c7_amended.2 c7okIn 3 r (by decide) (by decide) (by decide) (by decide) h
      simp [this]
  · exact c7_amended.1 true { gracefulOk := false }

/-! ## C1 — deadline expiry while Running -/

/-- Claim C1 (code bug): with the deadline of 10 time units exceeded
while the task is Running and no terminal marker ever observed, the
relay yields the timeout notice and VM teardown is still invoked exactly
once — but the recorded final state of the task is `Completed`, not `Failed`:
lines 542-548 run the success path after the timeout break, `task.error`
stays unset, and the formatted report shows `Unknown error` instead of a
timeout reason.  This theorem evaluates the embedded handler at the
failing input `c1In`. -/
theorem c1_timeout_marks_completed :
    ((handleCodingTask c1In 3).map fun r =>
       (r.status, r.taskError, r.calls.count PCall.destroy,
        r.outputs.contains (timeoutMsg 10),
        r.outputs.contains (formatTaskResult none ({} : ResultJson))))
    = some (some TaskStatus.completed, none, 1, true, true) := by
  decide

end Scree
